import Mathlib

/-!
Shallow embedding of `create_user_from_txt.py`, a Google Workspace user
provisioning script: parse a `key: value` text file, create a directory
user, trigger a password reset via an admin toggle, and email the
notification address.

File contents are modelled as `Option (List String)` (the list of lines,
`none` for a missing file); environment variables as `String → Option String`;
the directory service and the SMTP relay as oracles injected into the
functions that call them; Python exceptions raised by remote calls as
`Except` results; the emitted side effects (API calls, mails) as a trace
of `Event`s.
-/

namespace BulkGoogleGen

/-- The mapping type produced by `parse_txt` (a Python `dict` of strings,
in insertion order, with unique keys). -/
abbrev StrMap := List (String × String)

/-- Python `fields[key] = value`: replace the value of an existing key in
place, otherwise append the new pair at the end. -/
def insertKV : StrMap → String → String → StrMap
  | [], k, v => [(k, v)]
  | (k', v') :: rest, k, v =>
    if k' = k then (k, v) :: rest else (k', v') :: insertKV rest k v

/-- Python `str.isspace` members relevant to `str.strip()`. -/
def pySpace (c : Char) : Bool :=
  (c == ' ') || (c == '\t') || (c == '\n') || (c == '\r') ||
    (c == '\x0b') || (c == '\x0c')

/-- Python `str.strip()` on a character list: drop leading and trailing
whitespace. -/
def stripList (l : List Char) : List Char :=
  ((l.dropWhile pySpace).reverse.dropWhile pySpace).reverse

/-- Python `str.strip()`. -/
def strip (s : String) : String := String.mk (stripList s.data)

/-- Python `line.startswith('#')`. -/
def startsWithHash : List Char → Bool
  | '#' :: _ => true
  | _ => false

/-- Python `line.split(':', 1)` combined with the `':' in line` test:
`some (before, after)` splits at the first colon, `none` means the line
holds no colon. -/
def splitFirstColon : List Char → Option (List Char × List Char)
  | [] => none
  | c :: rest =>
    if c = ':' then some ([], rest)
    else
      match splitFirstColon rest with
      | some (k, v) => some (c :: k, v)
      | none => none

/-- The body of `parse_txt`'s loop for a single raw line of the file
(src/create_user_from_txt.py lines 52-58). -/
def processLine (fields : StrMap) (rawLine : String) : StrMap :=
  let line := stripList rawLine.data
  if line.isEmpty || startsWithHash line then fields
  else
    match splitFirstColon line with
    | some (k, v) =>
      insertKV fields (String.mk (stripList k)) (String.mk (stripList v))
    | none => fields

/-- `parse_txt` (src/create_user_from_txt.py lines 47-65): `none` input is
a missing file (Python `FileNotFoundError`, the function returns `None`). -/
def parse_txt (contents : Option (List String)) : Option StrMap :=
  match contents with
  | none => none
  | some lines => some (lines.foldl processLine [])

lemma splitFirstColon_some {l k v : List Char}
    (h : splitFirstColon l = some (k, v)) : l = k ++ ':' :: v ∧ ':' ∉ k := by
  induction l generalizing k v with
  | nil => simp [splitFirstColon] at h
  | cons c rest ih =>
    by_cases hc : c = ':'
    · subst hc
      simp only [splitFirstColon, if_pos rfl, Option.some.injEq, Prod.mk.injEq] at h
      obtain ⟨rfl, rfl⟩ := h
      simp
    · simp only [splitFirstColon, if_neg hc] at h
      cases hrest : splitFirstColon rest with
      | none => rw [hrest] at h; simp at h
      | some kv =>
        obtain ⟨k', v'⟩ := kv
        rw [hrest] at h
        simp only [Option.some.injEq, Prod.mk.injEq] at h
        obtain ⟨rfl, rfl⟩ := h
        obtain ⟨hl, hk⟩ := ih hrest
        constructor
        · simp [hl]
        · simp only [List.mem_cons, not_or]
          exact ⟨fun hcc => hc hcc.symm, hk⟩

lemma splitFirstColon_none {l : List Char} :
    splitFirstColon l = none ↔ ':' ∉ l := by
  induction l with
  | nil => simp [splitFirstColon]
  | cons c rest ih =>
    by_cases hc : c = ':'
    · subst hc; simp [splitFirstColon]
    · simp only [splitFirstColon, if_neg hc]
      cases hrest : splitFirstColon rest with
      | none =>
        simp only [List.mem_cons, not_or]
        constructor
        · intro _; exact ⟨fun hcc => hc hcc.symm, ih.mp hrest⟩
        · intro _; trivial
      | some kv =>
        obtain ⟨k', v'⟩ := kv
        constructor
        · intro h; simp at h
        · intro h
          simp only [List.mem_cons, not_or] at h
          have := ih.mpr h.2
          rw [this] at hrest
          simp at hrest

lemma lookup_insertKV (m : StrMap) (k v : String) :
    (insertKV m k v).lookup k = some v := by
  induction m with
  | nil => simp [insertKV, List.lookup]
  | cons kv' rest ih =>
    obtain ⟨k', v'⟩ := kv'
    by_cases hk : k' = k
    · subst hk; simp [insertKV, List.lookup]
    · simp only [insertKV, if_neg hk, List.lookup]
      have : (k == k') = false := by
        simp only [beq_eq_false_iff_ne, ne_eq]
        exact fun hcc => hk hcc.symm
      rw [this]
      exact ih

/-- A line the parser ignores: blank after stripping, a comment, or holding
no colon. -/
def unparseable (rawLine : String) : Prop :=
  stripList rawLine.data = [] ∨
    startsWithHash (stripList rawLine.data) = true ∨
    ':' ∉ stripList rawLine.data

instance (rawLine : String) : Decidable (unparseable rawLine) := by
  unfold unparseable
  infer_instance

lemma processLine_unparseable {rawLine : String} (fields : StrMap)
    (h : unparseable rawLine) : processLine fields rawLine = fields := by
  rcases h with h | h | h
  · simp [processLine, h]
  · simp [processLine, h]
  · rw [← splitFirstColon_none] at h
    by_cases hb : ((stripList rawLine.data).isEmpty ||
        startsWithHash (stripList rawLine.data)) = true
    · simp [processLine, hb]
    · simp [processLine, hb, h]

/-! ## The provisioning client, notifier, reset trick and orchestrator -/

/-- A JSON-ish value of the request body: Python strings, booleans, and the
nested `name` object. -/
inductive JValue where
  | str (s : String)
  | bool (b : Bool)
  | obj (fields : StrMap)
  deriving DecidableEq, Repr

/-- Python truthiness of the values appearing in `user_body`: an empty
string, `False` and an empty dict are falsy. -/
def truthy : JValue → Bool
  | .str s => !(s == "")
  | .bool b => b
  | .obj [] => false
  | .obj (_ :: _) => true

/-- One observable side effect of a run: a directory-service call or an
outbound mail. -/
inductive Event where
  | insertCall (body : List (String × JValue))
  | makeAdminCall (userKey : String) (status : Bool)
  | sendmailEvent (fromAddr : String) (toAddr : String)
  deriving DecidableEq, Repr

/-- The remote directory service, as a response oracle: `Except.error`
models a raised `HttpError`. `insert` answers with the created user
resource (a dict). -/
structure DirectoryService where
  insert : List (String × JValue) → Except String StrMap
  makeAdmin : String → Bool → Except String Unit

/-- `string.ascii_letters` as a character list. -/
def asciiLetters : List Char :=
  ((List.range 26).map fun i => Char.ofNat (97 + i)) ++
    ((List.range 26).map fun i => Char.ofNat (65 + i))

/-- `string.digits` as a character list. -/
def asciiDigits : List Char := (List.range 10).map fun i => Char.ofNat (48 + i)

/-- `string.punctuation` as a character list (ASCII 33-47, 58-64, 91-96,
123-126). -/
def asciiPunctuation : List Char :=
  ((List.range 15).map fun i => Char.ofNat (33 + i)) ++
    ((List.range 7).map fun i => Char.ofNat (58 + i)) ++
    ((List.range 6).map fun i => Char.ofNat (91 + i)) ++
    ((List.range 4).map fun i => Char.ofNat (123 + i))

/-- `characters = string.ascii_letters + string.digits + string.punctuation`
(src/create_user_from_txt.py line 76). -/
def passwordCharacters : List Char := asciiLetters ++ asciiDigits ++ asciiPunctuation

/-- The joined result of `random.choices(characters, k=12)`: the random
generator is injected as `seed`; each of the 12 draws picks a member of
`passwordCharacters`. -/
def genPassword (seed : Nat → Nat) : String :=
  String.mk ((List.range 12).map fun i =>
    passwordCharacters.get
      ⟨seed i % passwordCharacters.length, Nat.mod_lt _ (by decide)⟩)

/-- The `user_body` dict literal of `create_user`
(src/create_user_from_txt.py lines 79-90): `user_info.get(k, d)` is
`(user_info.lookup k).getD d`. -/
def buildUserBody (user_info : StrMap) (temp_password : String) :
    List (String × JValue) :=
  [("primaryEmail", .str ((user_info.lookup "primaryEmail").getD "")),
   ("name", .obj [("givenName", (user_info.lookup "givenName").getD ""),
                  ("familyName", (user_info.lookup "familyName").getD "")]),
   ("password", .str temp_password),
   ("changePasswordAtNextLogin", .bool true),
   ("orgUnitPath", .str ((user_info.lookup "orgUnitPath").getD "/")),
   ("recoveryEmail", .str ((user_info.lookup "recoveryEmail").getD "")),
   ("recoveryPhone", .str ((user_info.lookup "recoveryPhone").getD ""))]

/-- `user_body = {k: v for k, v in user_body.items() if v}`
(src/create_user_from_txt.py line 93). -/
def submittedBody (user_info : StrMap) (temp_password : String) :
    List (String × JValue) :=
  (buildUserBody user_info temp_password).filter fun kv => truthy kv.2

/-- `create_user` (src/create_user_from_txt.py lines 67-106). Returns the
`(primary_email, temp_password)` pair (`none` for Python's `None, None`)
and the trace of service calls. A missing `primaryEmail` in the service's
answer is the `KeyError` swallowed by the final `except Exception`. -/
def create_user (svc : DirectoryService) (user_info : StrMap)
    (seed : Nat → Nat) : Option (String × String) × List Event :=
  if (["primaryEmail", "givenName", "familyName"].all
      fun f => (user_info.lookup f).isSome) then
    let temp_password := genPassword seed
    let user_body := submittedBody user_info temp_password
    match svc.insert user_body with
    | .ok result =>
      match result.lookup "primaryEmail" with
      | some pe => (some (pe, temp_password), [.insertCall user_body])
      | none => (none, [.insertCall user_body])
    | .error _ => (none, [.insertCall user_body])
  else (none, [])

/-- `send_custom_welcome_email` (src/create_user_from_txt.py lines
108-154). `templates` is the file system (template path to contents),
`env` the process environment, `smtpOk` the SMTP relay's answer to a
login with the given credentials. A Python exception (missing template
file, missing credential, SMTP failure) becomes the `False` return. -/
def send_custom_welcome_email (templates : String → Option String)
    (env : String → Option String) (smtpOk : String → String → Bool)
    (to_email primary_email given_name : String)
    (temp_password : Option String) : Bool × List Event :=
  let template_file := match temp_password with
    | some _ => "templates/temp_password_email.html"
    | none => "templates/welcome_email_template.html"
  match templates template_file with
  | none => (false, [])
  | some html_template =>
    let html1 := (html_template.replace "$\x7bgivenName\x7d" given_name).replace
      "$\x7bprimaryEmail\x7d" primary_email
    let _html_content := match temp_password with
      | some pw => html1.replace "$\x7btempPassword\x7d" pw
      | none => html1
    match env "EMAIL_SMTP_USER" with
    | none => (false, [])
    | some smtp_user =>
      match env "EMAIL_SMTP_PASS" with
      | none => (false, [])
      | some smtp_pass =>
        if smtpOk smtp_user smtp_pass then
          (true, [.sendmailEvent smtp_user to_email])
        else (false, [])

/-- `trigger_password_reset` (src/create_user_from_txt.py lines 156-181):
makeAdmin with status `true`, then, if that did not raise, with status
`false`. -/
def trigger_password_reset (svc : DirectoryService) (email : String) :
    Bool × List Event :=
  match svc.makeAdmin email true with
  | .error _ => (false, [.makeAdminCall email true])
  | .ok _ =>
    match svc.makeAdmin email false with
    | .error _ => (false, [.makeAdminCall email true, .makeAdminCall email false])
    | .ok _ => (true, [.makeAdminCall email true, .makeAdminCall email false])

/-- `load_creds` (src/create_user_from_txt.py lines 30-45): `tokenValid`
models JSON parsing plus credential construction succeeding. -/
def load_creds (env : String → Option String) (tokenValid : String → Bool) :
    Option Unit :=
  match env "TOKEN_JSON" with
  | none => none
  | some s => if tokenValid s then some () else none

/-- How a run of `main` ends, per the script's log lines. `completed`
is `logger.info(f"Provisioning completed for ...")`. -/
inductive RunOutcome where
  | noTxtEnv
  | noUserInfo
  | credsFailed
  | createFailed
  | missingNotifyAddr
  | completed (primaryEmail : String)
  deriving DecidableEq, Repr

/-- `main` (src/create_user_from_txt.py lines 183-243): the orchestrator,
with all effects injected. `fs` maps the input path to the file's lines.
The `if primary_email:` truthiness test of line 206 takes the failure
branch both for `None` and for an empty string. -/
def main (env : String → Option String) (fs : String → Option (List String))
    (templates : String → Option String) (tokenValid : String → Bool)
    (smtpOk : String → String → Bool) (svc : DirectoryService)
    (seed : Nat → Nat) : RunOutcome × List Event :=
  match env "TXT_FILE" with
  | none => (.noTxtEnv, [])
  | some file_path =>
    if file_path.isEmpty then (.noTxtEnv, [])
    else
      match parse_txt (fs file_path) with
      | none => (.noUserInfo, [])
      | some user_info =>
        if user_info.isEmpty then (.noUserInfo, [])
        else
          match load_creds env tokenValid with
          | none => (.credsFailed, [])
          | some _ =>
            match create_user svc user_info seed with
            | (none, ev1) => (.createFailed, ev1)
            | (some (primary_email, temp_password), ev1) =>
              if primary_email.isEmpty then (.createFailed, ev1)
              else
              let given_name := (user_info.lookup "givenName").getD "User"
              match user_info.lookup "EmailToSendCred" with
              | none => (.missingNotifyAddr, ev1)
              | some notification_email =>
                if notification_email.isEmpty then (.missingNotifyAddr, ev1)
                else
                  let (reset_success, ev2) :=
                    trigger_password_reset svc notification_email
                  let (_, ev3) :=
                    if reset_success then
                      send_custom_welcome_email templates env smtpOk
                        notification_email primary_email given_name none
                    else
                      send_custom_welcome_email templates env smtpOk
                        notification_email primary_email given_name
                        (some temp_password)
                  (.completed primary_email, ev1 ++ ev2 ++ ev3)

/-- Discriminator for create-user calls in a trace. -/
def isInsertCall : Event → Bool
  | .insertCall _ => true
  | _ => false

/-- Discriminator for outbound mails in a trace. -/
def isSendmail : Event → Bool
  | .sendmailEvent _ _ => true
  | _ => false

/-- Discriminator for makeAdmin calls in a trace. -/
def isMakeAdmin : Event → Bool
  | .makeAdminCall _ _ => true
  | _ => false

/-! ## Helper lemmas -/

lemma ne_nil_of_lookup_isSome {u : StrMap} {k : String}
    (h : (u.lookup k).isSome = true) : u.isEmpty = false := by
  cases u <;> simp_all [List.lookup]

lemma genPassword_length (seed : Nat → Nat) : (genPassword seed).length = 12 := by
  simp [genPassword, String.length]

lemma genPassword_ne_empty (seed : Nat → Nat) : genPassword seed ≠ "" := by
  intro h
  have := genPassword_length seed
  rw [h] at this
  simp [String.length] at this

lemma genPassword_beq_empty (seed : Nat → Nat) :
    (genPassword seed == "") = false := by
  simp [genPassword_ne_empty seed]

lemma genPassword_mem (seed : Nat → Nat) :
    ∀ c ∈ (genPassword seed).toList, c ∈ passwordCharacters := by
  intro c hc
  simp only [String.toList, genPassword, List.mem_map, List.mem_range] at hc
  obtain ⟨i, _, rfl⟩ := hc
  apply List.get_mem

lemma create_user_trace (svc : DirectoryService) (u : StrMap) (seed : Nat → Nat)
    (h : (["primaryEmail", "givenName", "familyName"].all
      fun f => (u.lookup f).isSome) = true) :
    (create_user svc u seed).snd =
      [Event.insertCall (submittedBody u (genPassword seed))] := by
  unfold create_user
  rw [if_pos h]
  cases hsvc : svc.insert (submittedBody u (genPassword seed)) with
  | ok result => cases hres : result.lookup "primaryEmail" <;> simp [hsvc, hres]
  | error e => simp [hsvc]

lemma submittedBody_lookup_password (u : StrMap) {pw : String} (hpw : pw ≠ "") :
    (submittedBody u pw).lookup "password" = some (.str pw) := by
  have hb : (pw == "") = false := by simp [hpw]
  simp only [submittedBody, buildUserBody]
  cases h1 : ((u.lookup "primaryEmail").getD "" == "") <;>
    simp [List.filter, truthy, List.lookup, hb, h1]

lemma submittedBody_lookup_changePwd (u : StrMap) (pw : String) :
    (submittedBody u pw).lookup "changePasswordAtNextLogin" =
      some (.bool true) := by
  simp only [submittedBody, buildUserBody]
  cases h1 : ((u.lookup "primaryEmail").getD "" == "") <;>
    cases h2 : (pw == "") <;>
      simp [List.filter, truthy, List.lookup, h1, h2]

lemma submittedBody_lookup_org (u : StrMap) (pw : String)
    (h : u.lookup "orgUnitPath" = none) :
    (submittedBody u pw).lookup "orgUnitPath" = some (.str "/") := by
  simp only [submittedBody, buildUserBody, h]
  cases h1 : ((u.lookup "primaryEmail").getD "" == "") <;>
    cases h2 : (pw == "") <;>
      simp [List.filter, truthy, List.lookup, h1, h2]

lemma submittedBody_lookup_recoveryEmail (u : StrMap) (pw : String)
    (h : u.lookup "recoveryEmail" = none) :
    (submittedBody u pw).lookup "recoveryEmail" = none := by
  simp only [submittedBody, buildUserBody, h]
  cases h1 : ((u.lookup "primaryEmail").getD "" == "") <;>
    cases h2 : (pw == "") <;>
      cases h3 : ((u.lookup "orgUnitPath").getD "/" == "") <;>
        cases h4 : ((u.lookup "recoveryPhone").getD "" == "") <;>
          simp [List.filter, truthy, List.lookup, h1, h2, h3, h4]

lemma submittedBody_lookup_recoveryPhone (u : StrMap) (pw : String)
    (h : u.lookup "recoveryPhone" = none) :
    (submittedBody u pw).lookup "recoveryPhone" = none := by
  simp only [submittedBody, buildUserBody, h]
  cases h1 : ((u.lookup "primaryEmail").getD "" == "") <;>
    cases h2 : (pw == "") <;>
      cases h3 : ((u.lookup "orgUnitPath").getD "/" == "") <;>
        cases h4 : ((u.lookup "recoveryEmail").getD "" == "") <;>
          simp [List.filter, truthy, List.lookup, h1, h2, h3, h4]

lemma submittedBody_no_empty_str (u : StrMap) (pw : String) :
    ∀ k s, (k, JValue.str s) ∈ submittedBody u pw → s ≠ "" := by
  intro k s hmem
  have := (List.mem_filter.mp hmem).2
  simp only [truthy] at this
  intro hs
  rw [hs] at this
  simp at this

lemma send_fails_no_smtp_user (templates env : String → Option String)
    (smtpOk : String → String → Bool) (h : env "EMAIL_SMTP_USER" = none) :
    ∀ toAddr pe gn pw, send_custom_welcome_email templates env smtpOk toAddr pe gn pw =
      (false, []) := by
  intro toAddr pe gn pw
  cases pw with
  | none =>
    cases htpl : templates "templates/welcome_email_template.html" with
    | none => simp [send_custom_welcome_email, htpl]
    | some tpl => simp [send_custom_welcome_email, htpl, h]
  | some p =>
    cases htpl : templates "templates/temp_password_email.html" with
    | none => simp [send_custom_welcome_email, htpl]
    | some tpl => simp [send_custom_welcome_email, htpl, h]

lemma send_ok (templates env : String → Option String)
    (smtpOk : String → String → Bool) (toAddr pe gn tpl su sp : String)
    (htpl : templates "templates/welcome_email_template.html" = some tpl)
    (hu : env "EMAIL_SMTP_USER" = some su)
    (hp : env "EMAIL_SMTP_PASS" = some sp) (hok : smtpOk su sp = true) :
    send_custom_welcome_email templates env smtpOk toAddr pe gn none =
      (true, [.sendmailEvent su toAddr]) := by
  simp [send_custom_welcome_email, htpl, hu, hp, hok]

lemma send_trace_sendmail (templates env : String → Option String)
    (smtpOk : String → String → Bool) (toAddr pe gn : String)
    (pw : Option String) :
    ∀ ev ∈ (send_custom_welcome_email templates env smtpOk toAddr pe gn pw).snd,
      ∃ f t, ev = Event.sendmailEvent f t := by
  intro ev hev
  cases pw with
  | none =>
    simp only [send_custom_welcome_email] at hev
    cases htpl : templates "templates/welcome_email_template.html" with
    | none => rw [htpl] at hev; simp at hev
    | some tpl =>
      rw [htpl] at hev
      cases hu : env "EMAIL_SMTP_USER" with
      | none => rw [hu] at hev; simp at hev
      | some su =>
        rw [hu] at hev
        cases hp : env "EMAIL_SMTP_PASS" with
        | none => rw [hp] at hev; simp at hev
        | some sp =>
          rw [hp] at hev
          cases hok : smtpOk su sp <;> simp [hok] at hev
          exact ⟨su, toAddr, hev⟩
  | some p =>
    simp only [send_custom_welcome_email] at hev
    cases htpl : templates "templates/temp_password_email.html" with
    | none => rw [htpl] at hev; simp at hev
    | some tpl =>
      rw [htpl] at hev
      cases hu : env "EMAIL_SMTP_USER" with
      | none => rw [hu] at hev; simp at hev
      | some su =>
        rw [hu] at hev
        cases hp : env "EMAIL_SMTP_PASS" with
        | none => rw [hp] at hev; simp at hev
        | some sp =>
          rw [hp] at hev
          cases hok : smtpOk su sp <;> simp [hok] at hev
          exact ⟨su, toAddr, hev⟩

/-- Reduction of a full successful run: the directory service answers
every call with a non-empty primary email, the input parses to `u`, and
the notifier's trace is left symbolic. -/
lemma main_run (env : String → Option String) (fs : String → Option (List String))
    (templates : String → Option String) (tokenValid : String → Bool)
    (smtpOk : String → String → Bool) (svc : DirectoryService) (seed : Nat → Nat)
    (path : String) (lines : List String) (u : StrMap) (pe ne t : String)
    (h1 : env "TXT_FILE" = some path) (h1b : path.isEmpty = false)
    (h2 : fs path = some lines)
    (h3 : lines.foldl processLine [] = u)
    (h4 : (u.lookup "primaryEmail").isSome = true)
    (h5 : (u.lookup "givenName").isSome = true)
    (h6 : (u.lookup "familyName").isSome = true)
    (h7 : u.lookup "EmailToSendCred" = some ne) (h7b : ne.isEmpty = false)
    (h8 : env "TOKEN_JSON" = some t) (h8b : tokenValid t = true)
    (h9 : ∀ b, svc.insert b = .ok [("primaryEmail", pe)])
    (h10 : ∀ e s, svc.makeAdmin e s = .ok ())
    (hpe : pe.isEmpty = false) :
    main env fs templates tokenValid smtpOk svc seed =
      (RunOutcome.completed pe,
       Event.insertCall (submittedBody u (genPassword seed)) ::
       Event.makeAdminCall ne true :: Event.makeAdminCall ne false ::
       (send_custom_welcome_email templates env smtpOk ne pe
          ((u.lookup "givenName").getD "User") none).snd) := by
  have hval : (["primaryEmail", "givenName", "familyName"].all
      fun f => (u.lookup f).isSome) = true := by
    simp [List.all, h4, h5, h6]
  have hempty := ne_nil_of_lookup_isSome h4
  have hcreate : create_user svc u seed =
      (some (pe, genPassword seed),
       [Event.insertCall (submittedBody u (genPassword seed))]) := by
    simp [create_user, hval, h9, List.lookup]
  have hreset : trigger_password_reset svc ne =
      (true, [Event.makeAdminCall ne true, Event.makeAdminCall ne false]) := by
    unfold trigger_password_reset
    rw [h10, h10]
  cases hsend : send_custom_welcome_email templates env smtpOk ne pe
      ((u.lookup "givenName").getD "User") none with
  | mk sres sev =>
    simp only [main, h1, h1b, h2, parse_txt, h3, hempty, load_creds, h8, h8b,
      if_true, hcreate, hpe, h7, h7b, hreset, hsend, Bool.false_eq_true,
      if_false]
    rfl

/-! ## Concrete fixtures -/

/-- A directory service that answers every call with success. -/
def svcOk : DirectoryService :=
  { insert := fun _ => .ok [("primaryEmail", "a@x.com")],
    makeAdmin := fun _ _ => .ok () }

/-- A fixed random generator (always draws index 0, i.e. the letter a). -/
def seed0 : Nat → Nat := fun _ => 0

/-- A record whose required keys are present but whose `primaryEmail`
value is empty. -/
def recordEmptyEmail : StrMap :=
  [("primaryEmail", ""), ("givenName", "Ana"), ("familyName", "Lee")]

/-- A record with only the required keys: no optional field present. -/
def recordNoOptional : StrMap :=
  [("primaryEmail", "a@x.com"), ("givenName", "Ana"), ("familyName", "Lee")]

/-- The input file of the spec's end-to-end test. -/
def linesW : List String :=
  ["primaryEmail: a@x.com", "givenName: Ana", "familyName: Lee",
   "EmailToSendCred: notify@x.com"]

/-- What `parse_txt` makes of `linesW`. -/
def parsedW : StrMap :=
  [("primaryEmail", "a@x.com"), ("givenName", "Ana"), ("familyName", "Lee"),
   ("EmailToSendCred", "notify@x.com")]

/-- A fully populated environment. -/
def envW : String → Option String := fun s =>
  if s = "TXT_FILE" then some "user.txt"
  else if s = "TOKEN_JSON" then some "tok"
  else if s = "EMAIL_SMTP_USER" then some "admin@x.com"
  else if s = "EMAIL_SMTP_PASS" then some "pw"
  else none

/-- An environment with the SMTP transport credentials unset. -/
def envNoSmtp : String → Option String := fun s =>
  if s = "TXT_FILE" then some "user.txt"
  else if s = "TOKEN_JSON" then some "tok"
  else none

/-- A file system holding only the input file. -/
def fsW : String → Option (List String) := fun p =>
  if p = "user.txt" then some linesW else none

/-- A file system where every template resource exists. -/
def templatesW : String → Option String := fun _ => some "Hello"

/-- Token material that always deserializes. -/
def tokenValidW : String → Bool := fun _ => true

/-- An SMTP relay that accepts every login. -/
def smtpOkW : String → String → Bool := fun _ _ => true

/-! ## Claims -/

/-- C1 counterexample: a record whose `primaryEmail` is present but empty
passes `create_user`'s validation (which only checks key presence), a
request IS submitted to the directory service, and the call even
succeeds — refuting the claim that a present-but-empty required field
fails with no request submitted. -/
theorem create_user_empty_field_submits_cex :
    recordEmptyEmail.lookup "primaryEmail" = some "" ∧
    (create_user svcOk recordEmptyEmail seed0).snd ≠ [] ∧
    (create_user svcOk recordEmptyEmail seed0).fst ≠ none := by
  decide

/-- C1 (amended): if any of the three required identity fields
(`primaryEmail`, `givenName`, `familyName`) is absent as a key from the
record, `create_user` fails with the missing-required-field condition and
submits no request to the directory service. Presence is the only check:
a required field present with an empty value is not rejected. -/
theorem create_user_missing_required_fails (svc : DirectoryService)
    (u : StrMap) (seed : Nat → Nat)
    (h : u.lookup "primaryEmail" = none ∨ u.lookup "givenName" = none ∨
      u.lookup "familyName" = none) :
    create_user svc u seed = (none, []) := by
  have hall : (["primaryEmail", "givenName", "familyName"].all
      fun f => (u.lookup f).isSome) = false := by
    rcases h with h | h | h <;> simp [List.all, h]
  simp [create_user, hall]

/-- Witness for C1's amended theorem at a record missing `givenName`. -/
theorem create_user_missing_required_fails_witness :
    ([("primaryEmail", "a@x.com")] : StrMap).lookup "givenName" = none ∧
    create_user svcOk [("primaryEmail", "a@x.com")] seed0 = (none, []) :=
  ⟨by decide,
   create_user_missing_required_fails svcOk _ seed0 (Or.inr (Or.inl (by decide)))⟩

/-- C2: `parse_txt` reads line by line (a fold of `processLine`); a line
that strips to blank or to a comment is skipped; a line with no colon is
ignored; a remaining line is split at the first colon (the key holds no
colon), both sides are stripped, and the pair is inserted; inserting a
duplicate key overwrites, so the last occurrence wins on lookup. -/
theorem parse_txt_line_semantics :
    (∀ lines, parse_txt (some lines) = some (lines.foldl processLine [])) ∧
    (∀ fields rawLine, stripList rawLine.data = [] →
      processLine fields rawLine = fields) ∧
    (∀ fields rawLine, startsWithHash (stripList rawLine.data) = true →
      processLine fields rawLine = fields) ∧
    (∀ fields rawLine, ':' ∉ stripList rawLine.data →
      processLine fields rawLine = fields) ∧
    (∀ fields rawLine k v,
      splitFirstColon (stripList rawLine.data) = some (k, v) →
      startsWithHash (stripList rawLine.data) = false →
      processLine fields rawLine =
        insertKV fields (String.mk (stripList k)) (String.mk (stripList v)) ∧
      stripList rawLine.data = k ++ ':' :: v ∧ ':' ∉ k) ∧
    (∀ fields k v, (insertKV fields k v).lookup k = some v) := by
  refine ⟨fun lines => rfl, ?_, ?_, ?_, ?_, lookup_insertKV⟩
  · intro fields rawLine h
    exact processLine_unparseable fields (Or.inl h)
  · intro fields rawLine h
    exact processLine_unparseable fields (Or.inr (Or.inl h))
  · intro fields rawLine h
    exact processLine_unparseable fields (Or.inr (Or.inr h))
  · intro fields rawLine k v hsplit hH
    obtain ⟨hl, hk⟩ := splitFirstColon_some hsplit
    refine ⟨?_, hl, hk⟩
    have hE : (stripList rawLine.data).isEmpty = false := by
      rw [hl]; simp
    have hb : ((stripList rawLine.data).isEmpty ||
        startsWithHash (stripList rawLine.data)) = false := by
      simp [hE, hH]
    simp [processLine, hb, hsplit]

/-- Witness for C2 at concrete lines: a blank line is skipped, a
`key: value` line is split, stripped and inserted, and a duplicate key
is overwritten. -/
theorem parse_txt_line_semantics_witness :
    processLine [("k", "v")] "   " = [("k", "v")] ∧
    processLine [] " givenName :  Ana " = [("givenName", "Ana")] ∧
    (insertKV [("a", "1"), ("b", "2")] "a" "3").lookup "a" = some "3" := by
  refine ⟨parse_txt_line_semantics.2.1 _ _ (by decide), ?_,
    parse_txt_line_semantics.2.2.2.2.2 _ _ _⟩
  have h := (parse_txt_line_semantics.2.2.2.2.1 [] " givenName :  Ana "
    "givenName ".data "  Ana".data (by decide) (by decide)).1
  rw [h]
  decide

/-- C3 counterexample: for a record with no optional field, the body
`create_user` submits still contains an `orgUnitPath` key (defaulted to
the string slash) — refuting the claim that every absent optional field
is omitted entirely from the submitted body. -/
theorem orgUnitPath_not_omitted_cex :
    recordNoOptional.lookup "orgUnitPath" = none ∧
    (create_user svcOk recordNoOptional seed0).snd =
      [Event.insertCall (submittedBody recordNoOptional (genPassword seed0))] ∧
    (submittedBody recordNoOptional (genPassword seed0)).lookup "orgUnitPath" =
      some (JValue.str "/") := by
  decide

/-- C3 (amended): `create_user` submits exactly the filtered body;
`recoveryEmail` and `recoveryPhone` absent from the record are omitted
entirely from it; no key of the submitted body maps to an empty-string
value. (`orgUnitPath`, unlike the claim's statement, is defaulted to the
slash path when absent, not omitted.) -/
theorem submitted_body_optional_fields (svc : DirectoryService) (u : StrMap)
    (seed : Nat → Nat)
    (h : (["primaryEmail", "givenName", "familyName"].all
      fun f => (u.lookup f).isSome) = true) :
    (create_user svc u seed).snd =
      [Event.insertCall (submittedBody u (genPassword seed))] ∧
    (u.lookup "recoveryEmail" = none →
      (submittedBody u (genPassword seed)).lookup "recoveryEmail" = none) ∧
    (u.lookup "recoveryPhone" = none →
      (submittedBody u (genPassword seed)).lookup "recoveryPhone" = none) ∧
    (∀ k s, (k, JValue.str s) ∈ submittedBody u (genPassword seed) → s ≠ "") :=
  ⟨create_user_trace svc u seed h,
   fun h' => submittedBody_lookup_recoveryEmail u _ h',
   fun h' => submittedBody_lookup_recoveryPhone u _ h',
   submittedBody_no_empty_str u _⟩

/-- Witness for C3's amended theorem at the record with no optional
fields. -/
theorem submitted_body_optional_fields_witness :
    (create_user svcOk recordNoOptional seed0).snd =
      [Event.insertCall (submittedBody recordNoOptional (genPassword seed0))] ∧
    (submittedBody recordNoOptional (genPassword seed0)).lookup
      "recoveryEmail" = none :=
  ⟨(submitted_body_optional_fields svcOk recordNoOptional seed0 (by decide)).1,
   (submitted_body_optional_fields svcOk recordNoOptional seed0
     (by decide)).2.1 (by decide)⟩

/-- C6: `parse_txt` of a missing file is the null result, and `parse_txt`
of an existing file none of whose lines is parseable (blank, comment, or
colon-free) is the empty mapping, not a failure. -/
theorem parse_txt_not_found_and_empty :
    parse_txt none = none ∧
    ∀ lines, (∀ l ∈ lines, unparseable l) → parse_txt (some lines) = some [] := by
  refine ⟨rfl, ?_⟩
  intro lines
  induction lines with
  | nil => intro _; rfl
  | cons l rest ih =>
    intro h
    have h1 : processLine [] l = [] :=
      processLine_unparseable [] (h l (List.mem_cons_self l rest))
    have h2 := ih fun l' hl' => h l' (List.mem_cons_of_mem l hl')
    simp only [parse_txt, List.foldl_cons, h1, Option.some.injEq] at h2 ⊢
    exact h2

/-- Witness for C6's empty-mapping half at a file of skippable lines. -/
theorem parse_txt_not_found_and_empty_witness :
    parse_txt (some ["# comment", "   ", "no colon here"]) = some [] :=
  parse_txt_not_found_and_empty.2 _ (by decide)

/-- C7: the parser is deterministic — its result depends only on the
file's contents, so two runs over equal contents return identical
mappings. -/
theorem parse_txt_deterministic (c₁ c₂ : Option (List String)) (h : c₁ = c₂) :
    parse_txt c₁ = parse_txt c₂ := by rw [h]

/-- Witness for C7 at a concrete file. -/
theorem parse_txt_deterministic_witness :
    parse_txt (some linesW) = parse_txt (some linesW) :=
  parse_txt_deterministic _ _ rfl

/-- C4: when provisioning succeeds (the service confirms a non-empty
primary email) but the SMTP transport credential
environment variables are unset, the notifier fails softly — it returns a
failed result `(false, [])` instead of raising — and the run still ends
in the provisioning-completed report, with no mail sent (only the
notification step skipped). -/
theorem notifier_soft_failure (env : String → Option String)
    (fs : String → Option (List String)) (templates : String → Option String)
    (tokenValid : String → Bool) (smtpOk : String → String → Bool)
    (svc : DirectoryService) (seed : Nat → Nat)
    (path : String) (lines : List String) (u : StrMap) (pe ne t : String)
    (h1 : env "TXT_FILE" = some path) (h1b : path.isEmpty = false)
    (h2 : fs path = some lines)
    (h3 : lines.foldl processLine [] = u)
    (h4 : (u.lookup "primaryEmail").isSome = true)
    (h5 : (u.lookup "givenName").isSome = true)
    (h6 : (u.lookup "familyName").isSome = true)
    (h7 : u.lookup "EmailToSendCred" = some ne) (h7b : ne.isEmpty = false)
    (h8 : env "TOKEN_JSON" = some t) (h8b : tokenValid t = true)
    (h9 : ∀ b, svc.insert b = .ok [("primaryEmail", pe)])
    (h10 : ∀ e s, svc.makeAdmin e s = .ok ())
    (hpe : pe.isEmpty = false)
    (hsmtp : env "EMAIL_SMTP_USER" = none) :
    (∀ toAddr pe2 gn pw, send_custom_welcome_email templates env smtpOk
      toAddr pe2 gn pw = (false, [])) ∧
    (main env fs templates tokenValid smtpOk svc seed).fst =
      RunOutcome.completed pe ∧
    (∀ f toAddr, Event.sendmailEvent f toAddr ∉
      (main env fs templates tokenValid smtpOk svc seed).snd) := by
  have hsend := send_fails_no_smtp_user templates env smtpOk hsmtp
  have hrun := main_run env fs templates tokenValid smtpOk svc seed path lines
    u pe ne t h1 h1b h2 h3 h4 h5 h6 h7 h7b h8 h8b h9 h10 hpe
  refine ⟨hsend, ?_, ?_⟩
  · rw [hrun]
  · intro f toAddr hmem
    rw [hrun] at hmem
    rw [hsend ne pe ((u.lookup "givenName").getD "User") none] at hmem
    simp at hmem

/-- Witness for C4 with SMTP credentials unset and a success-only
directory service. -/
theorem notifier_soft_failure_witness :
    send_custom_welcome_email templatesW envNoSmtp smtpOkW "notify@x.com"
      "a@x.com" "Ana" none = (false, []) ∧
    (main envNoSmtp fsW templatesW tokenValidW smtpOkW svcOk seed0).fst =
      RunOutcome.completed "a@x.com" := by
  have h := notifier_soft_failure envNoSmtp fsW templatesW tokenValidW smtpOkW
    svcOk seed0 "user.txt" linesW parsedW "a@x.com" "notify@x.com" "tok"
    rfl (by decide) rfl (by decide) (by decide) (by decide) (by decide)
    (by decide) (by decide) rfl rfl (fun b => rfl) (fun e s => rfl)
    (by decide) rfl
  exact ⟨h.1 _ _ _ _, h.2.1⟩

/-- C5: given a record holding `primaryEmail`, `givenName`, `familyName`
and `EmailToSendCred`, a directory service returning success (confirming
a non-empty primary email), and a
working template and SMTP setup, the run ends in the
provisioning-completed report having made exactly one create-user call
and exactly one mail send, and every mail sent is addressed to the
`EmailToSendCred` value. -/
theorem orchestrator_single_calls (env : String → Option String)
    (fs : String → Option (List String)) (templates : String → Option String)
    (tokenValid : String → Bool) (smtpOk : String → String → Bool)
    (svc : DirectoryService) (seed : Nat → Nat)
    (path : String) (lines : List String) (u : StrMap)
    (pe ne t tpl su sp : String)
    (h1 : env "TXT_FILE" = some path) (h1b : path.isEmpty = false)
    (h2 : fs path = some lines)
    (h3 : lines.foldl processLine [] = u)
    (h4 : (u.lookup "primaryEmail").isSome = true)
    (h5 : (u.lookup "givenName").isSome = true)
    (h6 : (u.lookup "familyName").isSome = true)
    (h7 : u.lookup "EmailToSendCred" = some ne) (h7b : ne.isEmpty = false)
    (h8 : env "TOKEN_JSON" = some t) (h8b : tokenValid t = true)
    (h9 : ∀ b, svc.insert b = .ok [("primaryEmail", pe)])
    (h10 : ∀ e s, svc.makeAdmin e s = .ok ())
    (hpe : pe.isEmpty = false)
    (h11 : templates "templates/welcome_email_template.html" = some tpl)
    (h12 : env "EMAIL_SMTP_USER" = some su)
    (h13 : env "EMAIL_SMTP_PASS" = some sp) (h14 : smtpOk su sp = true) :
    (main env fs templates tokenValid smtpOk svc seed).fst =
      RunOutcome.completed pe ∧
    (main env fs templates tokenValid smtpOk svc seed).snd.countP
      isInsertCall = 1 ∧
    (main env fs templates tokenValid smtpOk svc seed).snd.countP
      isSendmail = 1 ∧
    (∀ f toAddr, Event.sendmailEvent f toAddr ∈
      (main env fs templates tokenValid smtpOk svc seed).snd → toAddr = ne) := by
  have hrun := main_run env fs templates tokenValid smtpOk svc seed path lines
    u pe ne t h1 h1b h2 h3 h4 h5 h6 h7 h7b h8 h8b h9 h10 hpe
  have hsend := send_ok templates env smtpOk ne pe
    ((u.lookup "givenName").getD "User") tpl su sp h11 h12 h13 h14
  rw [hrun, hsend]
  refine ⟨rfl, ?_, ?_, ?_⟩
  · simp [List.countP_cons, isInsertCall, isSendmail]
  · simp [List.countP_cons, isInsertCall, isSendmail]
  · intro f toAddr hmem
    simp only [List.mem_cons, List.not_mem_nil, or_false] at hmem
    rcases hmem with h' | h' | h' | h' <;> simp_all

/-- Witness for C5 with the spec's end-to-end fixture. -/
theorem orchestrator_single_calls_witness :
    (main envW fsW templatesW tokenValidW smtpOkW svcOk seed0).fst =
      RunOutcome.completed "a@x.com" ∧
    (main envW fsW templatesW tokenValidW smtpOkW svcOk seed0).snd.countP
      isSendmail = 1 := by
  have h := orchestrator_single_calls envW fsW templatesW tokenValidW smtpOkW
    svcOk seed0 "user.txt" linesW parsedW "a@x.com" "notify@x.com" "tok"
    "Hello" "admin@x.com" "pw" rfl (by decide) rfl (by decide) (by decide)
    (by decide) (by decide) (by decide) (by decide) rfl rfl
    (fun b => rfl) (fun e s => rfl) (by decide) rfl rfl rfl rfl
  exact ⟨h.1, h.2.2.1⟩

/-- C8: every body `create_user` submits carries
`changePasswordAtNextLogin` set to true and a `password` that is a
string of exactly 12 characters drawn from ASCII letters, digits and
punctuation; both entries survive the empty-value filter. -/
theorem password_policy_invariant (svc : DirectoryService) (u : StrMap)
    (seed : Nat → Nat)
    (h : (["primaryEmail", "givenName", "familyName"].all
      fun f => (u.lookup f).isSome) = true) :
    (create_user svc u seed).snd =
      [Event.insertCall (submittedBody u (genPassword seed))] ∧
    (submittedBody u (genPassword seed)).lookup "changePasswordAtNextLogin" =
      some (JValue.bool true) ∧
    (submittedBody u (genPassword seed)).lookup "password" =
      some (JValue.str (genPassword seed)) ∧
    (genPassword seed).length = 12 ∧
    (∀ c ∈ (genPassword seed).toList, c ∈ passwordCharacters) :=
  ⟨create_user_trace svc u seed h,
   submittedBody_lookup_changePwd u _,
   submittedBody_lookup_password u (genPassword_ne_empty seed),
   genPassword_length seed,
   genPassword_mem seed⟩

/-- Witness for C8 at the record with only required keys. -/
theorem password_policy_invariant_witness :
    (submittedBody recordNoOptional (genPassword seed0)).lookup "password" =
      some (JValue.str (genPassword seed0)) ∧
    (genPassword seed0).length = 12 :=
  ⟨(password_policy_invariant svcOk recordNoOptional seed0 (by decide)).2.2.1,
   (password_policy_invariant svcOk recordNoOptional seed0
     (by decide)).2.2.2.1⟩

/-- C9: when `orgUnitPath` is absent from the record, the submitted body
still contains an `orgUnitPath` key defaulted to the slash path, while
`recoveryEmail` and `recoveryPhone` are omitted entirely when absent. -/
theorem orgUnitPath_default_not_omitted (svc : DirectoryService) (u : StrMap)
    (seed : Nat → Nat)
    (h : (["primaryEmail", "givenName", "familyName"].all
      fun f => (u.lookup f).isSome) = true)
    (horg : u.lookup "orgUnitPath" = none) :
    (create_user svc u seed).snd =
      [Event.insertCall (submittedBody u (genPassword seed))] ∧
    (submittedBody u (genPassword seed)).lookup "orgUnitPath" =
      some (JValue.str "/") ∧
    (u.lookup "recoveryEmail" = none →
      (submittedBody u (genPassword seed)).lookup "recoveryEmail" = none) ∧
    (u.lookup "recoveryPhone" = none →
      (submittedBody u (genPassword seed)).lookup "recoveryPhone" = none) :=
  ⟨create_user_trace svc u seed h,
   submittedBody_lookup_org u _ horg,
   fun h' => submittedBody_lookup_recoveryEmail u _ h',
   fun h' => submittedBody_lookup_recoveryPhone u _ h'⟩

/-- Witness for C9 at the record with only required keys. -/
theorem orgUnitPath_default_not_omitted_witness :
    (submittedBody recordNoOptional (genPassword seed0)).lookup "orgUnitPath" =
      some (JValue.str "/") ∧
    (submittedBody recordNoOptional (genPassword seed0)).lookup
      "recoveryPhone" = none :=
  ⟨(orgUnitPath_default_not_omitted svcOk recordNoOptional seed0 (by decide)
      (by decide)).2.1,
   (orgUnitPath_default_not_omitted svcOk recordNoOptional seed0 (by decide)
      (by decide)).2.2.2 (by decide)⟩

/-- C10: after a successful creation (a confirmed non-empty primary
email) the orchestrator runs the
admin-toggle reset against the notification address (`EmailToSendCred`),
not the new account's primary email: the makeAdmin calls of the run's
trace are exactly status-true then status-false on that address, and
when the notification address differs from the primary email no
makeAdmin call ever targets the primary email. -/
theorem reset_targets_notification_address (env : String → Option String)
    (fs : String → Option (List String)) (templates : String → Option String)
    (tokenValid : String → Bool) (smtpOk : String → String → Bool)
    (svc : DirectoryService) (seed : Nat → Nat)
    (path : String) (lines : List String) (u : StrMap) (pe ne t : String)
    (h1 : env "TXT_FILE" = some path) (h1b : path.isEmpty = false)
    (h2 : fs path = some lines)
    (h3 : lines.foldl processLine [] = u)
    (h4 : (u.lookup "primaryEmail").isSome = true)
    (h5 : (u.lookup "givenName").isSome = true)
    (h6 : (u.lookup "familyName").isSome = true)
    (h7 : u.lookup "EmailToSendCred" = some ne) (h7b : ne.isEmpty = false)
    (h8 : env "TOKEN_JSON" = some t) (h8b : tokenValid t = true)
    (h9 : ∀ b, svc.insert b = .ok [("primaryEmail", pe)])
    (h10 : ∀ e s, svc.makeAdmin e s = .ok ())
    (hpe : pe.isEmpty = false) :
    (∀ e, (trigger_password_reset svc e).snd =
      [Event.makeAdminCall e true, Event.makeAdminCall e false]) ∧
    (main env fs templates tokenValid smtpOk svc seed).snd.filter isMakeAdmin =
      [Event.makeAdminCall ne true, Event.makeAdminCall ne false] ∧
    (ne ≠ pe → ∀ s, Event.makeAdminCall pe s ∉
      (main env fs templates tokenValid smtpOk svc seed).snd) := by
  have hrun := main_run env fs templates tokenValid smtpOk svc seed path lines
    u pe ne t h1 h1b h2 h3 h4 h5 h6 h7 h7b h8 h8b h9 h10 hpe
  have htrig : ∀ e, (trigger_password_reset svc e).snd =
      [Event.makeAdminCall e true, Event.makeAdminCall e false] := by
    intro e
    unfold trigger_password_reset
    rw [h10, h10]
  have hsf : ((send_custom_welcome_email templates env smtpOk ne pe
      ((u.lookup "givenName").getD "User") none).snd).filter isMakeAdmin
      = [] := by
    rw [List.filter_eq_nil_iff]
    intro ev hev
    obtain ⟨f, tt, rfl⟩ := send_trace_sendmail templates env smtpOk ne pe
      ((u.lookup "givenName").getD "User") none ev hev
    simp [isMakeAdmin]
  refine ⟨htrig, ?_, ?_⟩
  · rw [hrun]
    simp [List.filter_cons, isMakeAdmin, hsf]
  · intro hne s hmem
    rw [hrun] at hmem
    simp only [List.mem_cons] at hmem
    rcases hmem with h' | h' | h' | h'
    · simp at h'
    · simp only [Event.makeAdminCall.injEq] at h'
      exact hne h'.1.symm
    · simp only [Event.makeAdminCall.injEq] at h'
      exact hne h'.1.symm
    · obtain ⟨f, tt, heq⟩ := send_trace_sendmail templates env smtpOk ne pe
        ((u.lookup "givenName").getD "User") none _ h'
      simp at heq

/-- Witness for C10 with the end-to-end fixture, whose notification
address differs from the created account's primary email. -/
theorem reset_targets_notification_address_witness :
    (trigger_password_reset svcOk "notify@x.com").snd =
      [Event.makeAdminCall "notify@x.com" true,
       Event.makeAdminCall "notify@x.com" false] ∧
    (main envW fsW templatesW tokenValidW smtpOkW svcOk seed0).snd.filter
      isMakeAdmin =
      [Event.makeAdminCall "notify@x.com" true,
       Event.makeAdminCall "notify@x.com" false] := by
  have h := reset_targets_notification_address envW fsW templatesW tokenValidW
    smtpOkW svcOk seed0 "user.txt" linesW parsedW "a@x.com" "notify@x.com"
    "tok" rfl (by decide) rfl (by decide) (by decide) (by decide) (by decide)
    (by decide) (by decide) rfl rfl (fun b => rfl) (fun e s => rfl)
    (by decide)
  exact ⟨h.1 "notify@x.com", h.2.1⟩

end BulkGoogleGen
